import Mathlib

/-!
Shallow embedding of the debug-cell crate (src/lib.rs): a RefCell clone whose
borrow flag counts shared borrows, uses the all-ones usize sentinel for an
exclusive borrow, and, in debug builds, records one caller location per live
guard.  The build configuration (cfg debug_assertions) is threaded through as
a Bool parameter `dbg`: `true` is a debug build (locations recorded,
debug_assert active), `false` is a release build (push/pop are no-ops,
debug_assert compiled out, integer arithmetic wraps).
-/

namespace DebugCell

/-- The crate stores the flag in a usize; we model a 64-bit target, so all
flag arithmetic is modulo 2 ^ 64. -/
def USIZE_MOD : Nat := 2 ^ 64

/-- src/lib.rs: const UNUSED: usize = 0. -/
def UNUSED : Nat := 0

/-- src/lib.rs: const WRITING: usize = !0 (the all-ones usize, 2 ^ 64 - 1). -/
def WRITING : Nat := USIZE_MOD - 1

/-- Caller location descriptors are opaque tokens (in a debug build they are
static panic locations; their content never influences control flow). -/
abbrev Location := Nat

/-- struct BorrowFlag: the flag cell plus the location list.  In a release
build the locations field does not exist in the source; we keep the field but
the release-build operations below never touch it. -/
structure BorrowFlag where
  flag : Nat
  locations : List Location
deriving DecidableEq

/-- BorrowFlag::new: flag UNUSED, no recorded locations. -/
def BorrowFlag.new : BorrowFlag :=
  { flag := UNUSED, locations := [] }

/-- BorrowFlag::push: in a debug build appends the caller location to the
vector; in a release build it is a no-op. -/
def BorrowFlag.push (dbg : Bool) (caller : Location) (s : BorrowFlag) : BorrowFlag :=
  match dbg with
  | true => { s with locations := s.locations ++ [caller] }
  | false => s

/-- BorrowFlag::pop: in a debug build removes the last recorded location
(Vec::pop); in a release build it is a no-op. -/
def BorrowFlag.pop (dbg : Bool) (s : BorrowFlag) : BorrowFlag :=
  match dbg with
  | true => { s with locations := s.locations.dropLast }
  | false => s

/-- BorrowRef::new (shared acquisition): fails returning None when the flag is
WRITING, otherwise increments the flag and pushes the caller location.  The
increment cannot overflow because the flag is not WRITING = 2 ^ 64 - 1. -/
def BorrowRef.new (dbg : Bool) (caller : Location) (s : BorrowFlag) : Option BorrowFlag :=
  if s.flag = WRITING then none
  else some (BorrowFlag.push dbg caller { s with flag := s.flag + 1 })

/-- Drop for BorrowRef: debug_assert!(flag != WRITING && flag != UNUSED), then
decrement the flag and pop one location.  In a debug build a failed assert is
a panic (modelled as none); in a release build the assert is compiled out and
the subtraction wraps modulo 2 ^ 64. -/
def BorrowRef.drop (dbg : Bool) (s : BorrowFlag) : Option BorrowFlag :=
  match dbg with
  | true =>
    if s.flag = WRITING ∨ s.flag = UNUSED then none
    else some (BorrowFlag.pop true { s with flag := s.flag - 1 })
  | false =>
    some (BorrowFlag.pop false { s with flag := (s.flag + WRITING) % USIZE_MOD })

/-- BorrowRefMut::new (exclusive acquisition): fails returning None unless the
flag is UNUSED, otherwise sets the flag to WRITING and pushes the caller
location. -/
def BorrowRefMut.new (dbg : Bool) (caller : Location) (s : BorrowFlag) : Option BorrowFlag :=
  if s.flag ≠ UNUSED then none
  else some (BorrowFlag.push dbg caller { s with flag := WRITING })

/-- Drop for BorrowRefMut: debug_assert!(flag == WRITING), then set the flag
to UNUSED and pop one location.  In a debug build a failed assert is a panic
(modelled as none); in a release build the assert is compiled out. -/
def BorrowRefMut.drop (dbg : Bool) (s : BorrowFlag) : Option BorrowFlag :=
  match dbg with
  | true =>
    if s.flag ≠ WRITING then none
    else some (BorrowFlag.pop true { s with flag := UNUSED })
  | false =>
    some (BorrowFlag.pop false { s with flag := UNUSED })

/-- A system state: the borrow flag of one cell together with the number of
currently live shared guards (Ref values) and exclusive guards (RefMut
values).  The guard counts are ghost bookkeeping: a well-typed Rust program
can only drop a guard that is alive. -/
structure SysState where
  bf : BorrowFlag
  sharedGuards : Nat
  mutGuards : Nat
deriving DecidableEq

/-- The state of a freshly constructed RefCell. -/
def SysState.init : SysState :=
  { bf := BorrowFlag.new, sharedGuards := 0, mutGuards := 0 }

/-- The operations a consumer of the cell can perform.  tryShared/tryMut are
try_borrow/try_borrow_mut (and the panicking borrow/borrow_mut on their
success paths); dropShared/dropMut drop a live guard; mapShared/mapMut are
Ref::map and RefMut::map, which consume one guard and produce one guard of
the same kind without touching the borrow flag. -/
inductive Op where
  | tryShared (caller : Location)
  | tryMut (caller : Location)
  | dropShared
  | dropMut
  | mapShared
  | mapMut
deriving DecidableEq

/-- One step of the system.  A failed try leaves the state unchanged (the
caller receives an error value).  Dropping a guard that does not exist, or a
panic inside a drop (failed debug_assert), ends the trace (none). -/
def stepOp (dbg : Bool) (op : Op) (s : SysState) : Option SysState :=
  match op with
  | .tryShared c =>
    match BorrowRef.new dbg c s.bf with
    | some bf =>
      some { bf := bf, sharedGuards := s.sharedGuards + 1, mutGuards := s.mutGuards }
    | none => some s
  | .tryMut c =>
    match BorrowRefMut.new dbg c s.bf with
    | some bf =>
      some { bf := bf, sharedGuards := s.sharedGuards, mutGuards := s.mutGuards + 1 }
    | none => some s
  | .dropShared =>
    if s.sharedGuards = 0 then none
    else
      (BorrowRef.drop dbg s.bf).map fun bf =>
        { bf := bf, sharedGuards := s.sharedGuards - 1, mutGuards := s.mutGuards }
  | .dropMut =>
    if s.mutGuards = 0 then none
    else
      (BorrowRefMut.drop dbg s.bf).map fun bf =>
        { bf := bf, sharedGuards := s.sharedGuards, mutGuards := s.mutGuards - 1 }
  | .mapShared => if s.sharedGuards = 0 then none else some s
  | .mapMut => if s.mutGuards = 0 then none else some s

/-- Run a list of operations from a given state. -/
def runFrom (dbg : Bool) (s : SysState) : List Op → Option SysState
  | [] => some s
  | op :: ops =>
    match stepOp dbg op s with
    | some s' => runFrom dbg s' ops
    | none => none

/-- Run a list of operations from the initial state of a fresh cell. -/
def run (dbg : Bool) (ops : List Op) : Option SysState :=
  runFrom dbg SysState.init ops

/-- struct Ref (shared guard): holds the borrowed value (source field name
with a leading underscore).  The BorrowRef field is the one outstanding
shared transition; it carries no data beyond its existence, which the system
semantics tracks in sharedGuards. -/
structure Ref (β : Type) where
  value : β
deriving DecidableEq

/-- Ref::map: reuse the borrow of the original guard, project the value. -/
def Ref.map {β γ : Type} (orig : Ref β) (f : β → γ) : Ref γ :=
  { value := f orig.value }

/-- struct RefMut (exclusive guard): holds the borrowed value. -/
structure RefMut (β : Type) where
  value : β
deriving DecidableEq

/-- RefMut::map: reuse the borrow of the original guard, project the value. -/
def RefMut.map {β γ : Type} (orig : RefMut β) (f : β → γ) : RefMut γ :=
  { value := f orig.value }

/-- Modelled from the spec: the sources under src have no filter_map on Ref;
spec sections 3 and 4.3 describe a fallible projection that either produces
the new guard with the outstanding transition unchanged, or, when the
projection yields nothing, produces no guard and drops the original guard
normally so the transition count is released.  The result pairs the optional
new guard with the borrow flag after the operation (none meaning a panic
inside the normal drop). -/
def Ref.filter_map {β γ : Type} (dbg : Bool) (orig : Ref β) (f : β → Option γ)
    (s : BorrowFlag) : Option (Ref γ) × Option BorrowFlag :=
  match f orig.value with
  | some v => (some { value := v }, some s)
  | none => (none, BorrowRef.drop dbg s)

/-- Modelled from the spec: the fallible projection on RefMut, as for Ref;
on a failed projection the original exclusive guard is dropped normally. -/
def RefMut.filter_map {β γ : Type} (dbg : Bool) (orig : RefMut β)
    (f : β → Option γ) (s : BorrowFlag) : Option (RefMut γ) × Option BorrowFlag :=
  match f orig.value with
  | some v => (some { value := v }, some s)
  | none => (none, BorrowRefMut.drop dbg s)

/-- struct RefCell: a borrow flag plus the wrapped value. -/
structure RefCell (α : Type) where
  borrow : BorrowFlag
  value : α
deriving DecidableEq

/-- RefCell::new: fresh borrow flag around the value. -/
def RefCell.new {α : Type} (v : α) : RefCell α :=
  { borrow := BorrowFlag.new, value := v }

/-- RefCell::try_borrow: on success the shared guard and the updated cell;
on failure none is returned to the caller as a BorrowError value (whose
fields are diagnostic only). -/
def RefCell.try_borrow {α : Type} (dbg : Bool) (c : Location) (cell : RefCell α) :
    Option (Ref α × RefCell α) :=
  match BorrowRef.new dbg c cell.borrow with
  | some bf => some ({ value := cell.value }, { cell with borrow := bf })
  | none => none

/-- Clone for RefCell: RefCell::new(self.borrow().clone()); the borrow
accessor panics (none) when try_borrow fails. -/
def RefCell.clone {α : Type} (dbg : Bool) (c : Location) (cell : RefCell α) :
    Option (RefCell α) :=
  match RefCell.try_borrow dbg c cell with
  | some (r, _) => some (RefCell.new r.value)
  | none => none

/-- PartialEq for RefCell: *self.borrow() == *other.borrow(); either borrow
panics (none) when its try_borrow fails, the left one being attempted
first. -/
def RefCell.eq {α : Type} (dbg : Bool) (c1 c2 : Location) (beq : α → α → Bool)
    (self other : RefCell α) : Option Bool :=
  match RefCell.try_borrow dbg c1 self with
  | none => none
  | some (r1, _) =>
    match RefCell.try_borrow dbg c2 other with
    | none => none
    | some (r2, _) => some (beq r1.value r2.value)

/-! ### Basic lemmas about the embedding -/

theorem USIZE_MOD_eq : USIZE_MOD = 18446744073709551616 := by
  norm_num [USIZE_MOD]

theorem WRITING_eq : WRITING = 18446744073709551615 := by
  norm_num [WRITING, USIZE_MOD]

@[simp] theorem push_flag (dbg : Bool) (c : Location) (s : BorrowFlag) :
    (BorrowFlag.push dbg c s).flag = s.flag := by
  cases dbg <;> rfl

@[simp] theorem pop_flag (dbg : Bool) (s : BorrowFlag) :
    (BorrowFlag.pop dbg s).flag = s.flag := by
  cases dbg <;> rfl

theorem push_locations_true (c : Location) (s : BorrowFlag) :
    (BorrowFlag.push true c s).locations = s.locations ++ [c] := rfl

theorem push_false (c : Location) (s : BorrowFlag) :
    BorrowFlag.push false c s = s := rfl

theorem pop_locations_true (s : BorrowFlag) :
    (BorrowFlag.pop true s).locations = s.locations.dropLast := rfl

theorem pop_false (s : BorrowFlag) :
    BorrowFlag.pop false s = s := rfl

/-! ### The reachability invariant

The guard counts determine the flag: with no exclusive guard the flag equals
the number of live shared guards, and with one exclusive guard the flag is
the WRITING sentinel and no shared guard exists.  In a debug build the length
of the location list equals the number of live guards. -/

/-- Invariant relating the borrow flag, the live guard counts, and (in a
debug build) the recorded locations. -/
def Inv (dbg : Bool) (s : SysState) : Prop :=
  (s.mutGuards = 0 ∧ s.bf.flag = s.sharedGuards ∧ s.sharedGuards ≤ WRITING
    ∨ s.mutGuards = 1 ∧ s.bf.flag = WRITING ∧ s.sharedGuards = 0) ∧
  (dbg = true → s.bf.locations.length = s.sharedGuards + s.mutGuards)

theorem Inv.init (dbg : Bool) : Inv dbg SysState.init := by
  refine ⟨Or.inl ⟨rfl, rfl, ?_⟩, fun _ => rfl⟩
  decide

/-- One step preserves the invariant. -/
theorem stepOp_inv {dbg : Bool} {op : Op} {s s' : SysState}
    (hinv : Inv dbg s) (hstep : stepOp dbg op s = some s') : Inv dbg s' := by
  obtain ⟨hflag, hloc⟩ := hinv
  cases op with
  | tryShared c =>
    by_cases hW : s.bf.flag = WRITING
    · have hnew : BorrowRef.new dbg c s.bf = none := by
        simp [BorrowRef.new, hW]
      simp only [stepOp, hnew, Option.some.injEq] at hstep
      subst hstep
      exact ⟨hflag, hloc⟩
    · have hnew : BorrowRef.new dbg c s.bf
          = some (BorrowFlag.push dbg c { s.bf with flag := s.bf.flag + 1 }) := by
        simp [BorrowRef.new, hW]
      simp only [stepOp, hnew, Option.some.injEq] at hstep
      subst hstep
      rcases hflag with ⟨hm, hf, hle⟩ | ⟨hm, hf, hsh⟩
      · have hlt : s.sharedGuards < WRITING :=
          lt_of_le_of_ne hle fun he => hW (hf.trans he)
        refine ⟨Or.inl ⟨hm, ?_, ?_⟩, ?_⟩
        · dsimp only
          rw [push_flag]
          exact congrArg (· + 1) hf
        · dsimp only
          omega
        · intro hd
          subst hd
          have hlen := hloc rfl
          dsimp only
          rw [push_locations_true]
          simp only [List.length_append, List.length_singleton]
          omega
      · exact absurd hf hW
  | tryMut c =>
    by_cases hU : s.bf.flag = UNUSED
    · have hnew : BorrowRefMut.new dbg c s.bf
          = some (BorrowFlag.push dbg c { s.bf with flag := WRITING }) := by
        simp [BorrowRefMut.new, hU]
      simp only [stepOp, hnew, Option.some.injEq] at hstep
      subst hstep
      rcases hflag with ⟨hm, hf, hle⟩ | ⟨hm, hf, hsh⟩
      · have hs0 : s.sharedGuards = 0 := by
          rw [hU] at hf
          exact hf.symm
        refine ⟨Or.inr ⟨?_, ?_, ?_⟩, ?_⟩
        · dsimp only
          omega
        · dsimp only
          rw [push_flag]
        · dsimp only
          exact hs0
        · intro hd
          subst hd
          have hlen := hloc rfl
          dsimp only
          rw [push_locations_true]
          simp only [List.length_append, List.length_singleton]
          omega
      · rw [hU] at hf
        rw [WRITING_eq] at hf
        exact absurd hf.symm (by decide)
    · have hnew : BorrowRefMut.new dbg c s.bf = none := by
        simp [BorrowRefMut.new, hU]
      simp only [stepOp, hnew, Option.some.injEq] at hstep
      subst hstep
      exact ⟨hflag, hloc⟩
  | dropShared =>
    by_cases hz : s.sharedGuards = 0
    · simp [stepOp, hz] at hstep
    · rcases hflag with ⟨hm, hf, hle⟩ | ⟨hm, hf, hsh⟩
      · cases dbg with
        | true =>
          by_cases hWz : s.bf.flag = WRITING ∨ s.bf.flag = UNUSED
          · have hdrop : BorrowRef.drop true s.bf = none := by
              simp [BorrowRef.drop, hWz]
            simp [stepOp, if_neg hz, hdrop] at hstep
          · have hdrop : BorrowRef.drop true s.bf
                = some (BorrowFlag.pop true { s.bf with flag := s.bf.flag - 1 }) := by
              simp only [BorrowRef.drop, if_neg hWz]
            simp only [stepOp, if_neg hz, hdrop, Option.map_some', Option.some.injEq] at hstep
            subst hstep
            have hlen := hloc rfl
            have hne : s.sharedGuards ≠ 0 := hz
            refine ⟨Or.inl ⟨hm, ?_, ?_⟩, ?_⟩
            · dsimp only
              rw [pop_flag]
              dsimp only
              omega
            · dsimp only
              omega
            · intro _
              dsimp only
              rw [pop_locations_true]
              simp only [List.length_dropLast]
              omega
        | false =>
          have hdrop : BorrowRef.drop false s.bf
              = some { s.bf with flag := (s.bf.flag + WRITING) % USIZE_MOD } := by
            simp only [BorrowRef.drop, pop_false]
          simp only [stepOp, if_neg hz, hdrop, Option.map_some', Option.some.injEq] at hstep
          subst hstep
          refine ⟨Or.inl ⟨hm, ?_, ?_⟩, ?_⟩
          · dsimp only
            rw [hf, USIZE_MOD_eq, WRITING_eq]
            rw [WRITING_eq] at hle
            omega
          · dsimp only
            omega
          · intro hd
            exact absurd hd (by decide)
      · exact absurd hsh hz
  | dropMut =>
    by_cases hz : s.mutGuards = 0
    · simp [stepOp, hz] at hstep
    · rcases hflag with ⟨hm, hf, hle⟩ | ⟨hm, hf, hsh⟩
      · exact absurd hm hz
      · have hdrop : BorrowRefMut.drop dbg s.bf
            = some (BorrowFlag.pop dbg { s.bf with flag := UNUSED }) := by
          cases dbg with
          | true => simp [BorrowRefMut.drop, hf]
          | false => rfl
        simp only [stepOp, if_neg hz, hdrop, Option.map_some', Option.some.injEq] at hstep
        subst hstep
        refine ⟨Or.inl ⟨?_, ?_, ?_⟩, ?_⟩
        · dsimp only
          omega
        · dsimp only
          rw [pop_flag]
          dsimp only
          simp only [hsh, UNUSED]
        · dsimp only
          rw [WRITING_eq]
          omega
        · intro hd
          subst hd
          have hlen := hloc rfl
          dsimp only
          rw [pop_locations_true]
          simp only [List.length_dropLast]
          omega
  | mapShared =>
    by_cases hz : s.sharedGuards = 0
    · simp [stepOp, hz] at hstep
    · simp only [stepOp, if_neg hz, Option.some.injEq] at hstep
      subst hstep
      exact ⟨hflag, hloc⟩
  | mapMut =>
    by_cases hz : s.mutGuards = 0
    · simp [stepOp, hz] at hstep
    · simp only [stepOp, if_neg hz, Option.some.injEq] at hstep
      subst hstep
      exact ⟨hflag, hloc⟩

/-- Running any operation list preserves the invariant. -/
theorem runFrom_inv {dbg : Bool} :
    ∀ (ops : List Op) (s s' : SysState),
      Inv dbg s → runFrom dbg s ops = some s' → Inv dbg s'
  | [], s, s', hinv, hrun => by
    simp only [runFrom, Option.some.injEq] at hrun
    subst hrun
    exact hinv
  | op :: ops, s, s', hinv, hrun => by
    simp only [runFrom] at hrun
    cases hstep : stepOp dbg op s with
    | none => rw [hstep] at hrun; simp at hrun
    | some t =>
      rw [hstep] at hrun
      exact runFrom_inv ops t s' (stepOp_inv hinv hstep) hrun

/-- Every state reachable from a fresh cell satisfies the invariant. -/
theorem run_inv {dbg : Bool} {ops : List Op} {s : SysState}
    (h : run dbg ops = some s) : Inv dbg s :=
  runFrom_inv ops SysState.init s (Inv.init dbg) h

/-- Helper: a successful shared acquire followed by the guard drop restores
the flag, provided in a debug build the incremented flag misses the WRITING
sentinel. -/
theorem shared_round_trip {dbg : Bool} {c : Location} {s s' : BorrowFlag}
    (hwf : s.flag ≤ WRITING) (hnc : dbg = true → s.flag + 1 ≠ WRITING)
    (hnew : BorrowRef.new dbg c s = some s') : BorrowRef.drop dbg s' = some s := by
  by_cases hW : s.flag = WRITING
  · simp [BorrowRef.new, hW] at hnew
  · have hsome : BorrowRef.new dbg c s
        = some (BorrowFlag.push dbg c { s with flag := s.flag + 1 }) := by
      simp [BorrowRef.new, hW]
    rw [hsome, Option.some.injEq] at hnew
    subst hnew
    cases dbg with
    | true =>
      have hcond : ¬((BorrowFlag.push true c { s with flag := s.flag + 1 }).flag
          = WRITING ∨
          (BorrowFlag.push true c { s with flag := s.flag + 1 }).flag = UNUSED) := by
        rw [push_flag]
        rintro (h | h)
        · exact hnc rfl h
        · exact absurd h (by simp [UNUSED])
      simp only [BorrowRef.drop, if_neg hcond]
      rw [Option.some.injEq]
      show (⟨s.flag + 1 - 1, (s.locations ++ [c]).dropLast⟩ : BorrowFlag) = s
      rw [Nat.add_sub_cancel, List.dropLast_concat]
    | false =>
      simp only [BorrowRef.drop, pop_false, push_false]
      rw [Option.some.injEq]
      show (⟨(s.flag + 1 + WRITING) % USIZE_MOD, s.locations⟩ : BorrowFlag) = s
      have hm : (s.flag + 1 + WRITING) % USIZE_MOD = s.flag := by
        rw [WRITING_eq, USIZE_MOD_eq]
        rw [WRITING_eq] at hwf
        omega
      rw [hm]

/-- Helper: a successful exclusive acquire followed by the guard drop always
restores the flag. -/
theorem mut_round_trip {dbg : Bool} {c : Location} {s s' : BorrowFlag}
    (hnew : BorrowRefMut.new dbg c s = some s') :
    BorrowRefMut.drop dbg s' = some s := by
  by_cases hU : s.flag = UNUSED
  · have hsome : BorrowRefMut.new dbg c s
        = some (BorrowFlag.push dbg c { s with flag := WRITING }) := by
      simp [BorrowRefMut.new, hU]
    rw [hsome, Option.some.injEq] at hnew
    subst hnew
    cases dbg with
    | true =>
      have hcond : ¬(BorrowFlag.push true c { s with flag := WRITING }).flag
          ≠ WRITING := by
        rw [push_flag]
        exact fun h => h rfl
      simp only [BorrowRefMut.drop, if_neg hcond]
      rw [Option.some.injEq]
      show (⟨UNUSED, (s.locations ++ [c]).dropLast⟩ : BorrowFlag) = s
      rw [List.dropLast_concat, ← hU]
    | false =>
      simp only [BorrowRefMut.drop, pop_false, push_false]
      rw [Option.some.injEq]
      show (⟨UNUSED, s.locations⟩ : BorrowFlag) = s
      rw [← hU]
  · simp [BorrowRefMut.new, hU] at hnew

/-! ### Claim theorems -/

/-- C1: in every state reachable by any sequence of borrow / borrow_mut /
try_borrow / try_borrow_mut acquisitions and guard drops, a flag value that
denotes a positive shared count (1 to WRITING - 1) excludes a live exclusive
guard, a positive shared-guard count excludes a live exclusive guard, and a
live exclusive guard forces the WRITING sentinel and a zero shared count. -/
theorem c1_mutual_exclusion (dbg : Bool) (ops : List Op) (s : SysState)
    (h : run dbg ops = some s) :
    (1 ≤ s.bf.flag ∧ s.bf.flag ≤ WRITING - 1 → s.mutGuards = 0) ∧
    (0 < s.sharedGuards → s.mutGuards = 0) ∧
    (0 < s.mutGuards → s.bf.flag = WRITING ∧ s.sharedGuards = 0) := by
  obtain ⟨hflag, -⟩ := run_inv h
  rcases hflag with ⟨hm, hf, hle⟩ | ⟨hm, hf, hsh⟩
  · exact ⟨fun _ => hm, fun _ => hm, fun hmp => absurd hm (by omega)⟩
  · refine ⟨?_, ?_, fun _ => ⟨hf, hsh⟩⟩
    · rintro ⟨-, h2⟩
      rw [hf, WRITING_eq] at h2
      exact absurd h2 (by decide)
    · intro hp
      omega

/-- Witness for C1 at a concrete trace: shared acquire, failed exclusive
acquire, shared release, successful exclusive acquire. -/
theorem c1_mutual_exclusion_witness :
    (1 ≤ (⟨⟨WRITING, [2]⟩, 0, 1⟩ : SysState).bf.flag ∧
      (⟨⟨WRITING, [2]⟩, 0, 1⟩ : SysState).bf.flag ≤ WRITING - 1 →
      (⟨⟨WRITING, [2]⟩, 0, 1⟩ : SysState).mutGuards = 0) ∧
    (0 < (⟨⟨WRITING, [2]⟩, 0, 1⟩ : SysState).sharedGuards →
      (⟨⟨WRITING, [2]⟩, 0, 1⟩ : SysState).mutGuards = 0) ∧
    (0 < (⟨⟨WRITING, [2]⟩, 0, 1⟩ : SysState).mutGuards →
      (⟨⟨WRITING, [2]⟩, 0, 1⟩ : SysState).bf.flag = WRITING ∧
      (⟨⟨WRITING, [2]⟩, 0, 1⟩ : SysState).sharedGuards = 0) :=
  c1_mutual_exclusion true [Op.tryShared 0, Op.tryMut 1, Op.dropShared, Op.tryMut 2]
    ⟨⟨WRITING, [2]⟩, 0, 1⟩ (by decide)

/-- C2: a shared acquire succeeds exactly when the flag is UNUSED or a
positive shared count; on success the flag becomes its predecessor plus one
and, in a debug build, the caller location is appended; when the flag is
WRITING the acquire fails and the system state is unchanged. -/
theorem c2_shared_acquire (dbg : Bool) (c : Location) (s : BorrowFlag) (g m : Nat)
    (hwf : s.flag ≤ WRITING) :
    ((BorrowRef.new dbg c s).isSome ↔
      s.flag = UNUSED ∨ (1 ≤ s.flag ∧ s.flag ≤ WRITING - 1)) ∧
    (∀ s', BorrowRef.new dbg c s = some s' →
      s'.flag = s.flag + 1 ∧
      s'.locations = (match dbg with
        | true => s.locations ++ [c]
        | false => s.locations)) ∧
    (s.flag = WRITING →
      BorrowRef.new dbg c s = none ∧
      stepOp dbg (Op.tryShared c) { bf := s, sharedGuards := g, mutGuards := m }
        = some { bf := s, sharedGuards := g, mutGuards := m }) := by
  refine ⟨?_, ?_, ?_⟩
  · by_cases hW : s.flag = WRITING
    · have hnone : BorrowRef.new dbg c s = none := by simp [BorrowRef.new, hW]
      rw [hnone]
      simp only [Option.isSome_none, Bool.false_eq_true, false_iff]
      rw [hW, WRITING_eq]
      rintro (h0 | ⟨-, h2⟩)
      · exact absurd h0 (by decide)
      · exact absurd h2 (by decide)
    · have hsome : BorrowRef.new dbg c s
          = some (BorrowFlag.push dbg c { s with flag := s.flag + 1 }) := by
        simp [BorrowRef.new, hW]
      rw [hsome]
      simp only [Option.isSome_some, true_iff]
      rw [WRITING_eq] at hwf hW ⊢
      simp only [UNUSED]
      omega
  · intro s' hs'
    by_cases hW : s.flag = WRITING
    · simp [BorrowRef.new, hW] at hs'
    · have hsome : BorrowRef.new dbg c s
          = some (BorrowFlag.push dbg c { s with flag := s.flag + 1 }) := by
        simp [BorrowRef.new, hW]
      rw [hsome, Option.some.injEq] at hs'
      subst hs'
      refine ⟨by rw [push_flag], ?_⟩
      cases dbg with
      | true => rw [push_locations_true]
      | false => rfl
  · intro hW
    have hnone : BorrowRef.new dbg c s = none := by simp [BorrowRef.new, hW]
    exact ⟨hnone, by simp [stepOp, hnone]⟩

/-- Witness for C2 at the unused flag of a fresh cell in a debug build. -/
theorem c2_shared_acquire_witness :
    ((BorrowRef.new true 5 ⟨0, []⟩).isSome ↔
      (⟨0, []⟩ : BorrowFlag).flag = UNUSED ∨
        (1 ≤ (⟨0, []⟩ : BorrowFlag).flag ∧
          (⟨0, []⟩ : BorrowFlag).flag ≤ WRITING - 1)) ∧
    (∀ s', BorrowRef.new true 5 ⟨0, []⟩ = some s' →
      s'.flag = (⟨0, []⟩ : BorrowFlag).flag + 1 ∧
      s'.locations = (match (true : Bool) with
        | true => (⟨0, []⟩ : BorrowFlag).locations ++ [5]
        | false => (⟨0, []⟩ : BorrowFlag).locations)) ∧
    ((⟨0, []⟩ : BorrowFlag).flag = WRITING →
      BorrowRef.new true 5 ⟨0, []⟩ = none ∧
      stepOp true (Op.tryShared 5) ⟨⟨0, []⟩, 0, 0⟩ = some ⟨⟨0, []⟩, 0, 0⟩) :=
  c2_shared_acquire true 5 ⟨0, []⟩ 0 0 (by decide)

/-- C3: an exclusive acquire succeeds exactly when the flag is UNUSED; on
success the flag becomes the WRITING sentinel and, in a debug build, the
caller location is appended; from any other flag value it fails and the
system state is unchanged. -/
theorem c3_exclusive_acquire (dbg : Bool) (c : Location) (s : BorrowFlag) (g m : Nat) :
    ((BorrowRefMut.new dbg c s).isSome ↔ s.flag = UNUSED) ∧
    (∀ s', BorrowRefMut.new dbg c s = some s' →
      s'.flag = WRITING ∧
      s'.locations = (match dbg with
        | true => s.locations ++ [c]
        | false => s.locations)) ∧
    (s.flag ≠ UNUSED →
      BorrowRefMut.new dbg c s = none ∧
      stepOp dbg (Op.tryMut c) { bf := s, sharedGuards := g, mutGuards := m }
        = some { bf := s, sharedGuards := g, mutGuards := m }) := by
  refine ⟨?_, ?_, ?_⟩
  · by_cases hU : s.flag = UNUSED
    · have hsome : BorrowRefMut.new dbg c s
          = some (BorrowFlag.push dbg c { s with flag := WRITING }) := by
        simp [BorrowRefMut.new, hU]
      rw [hsome]
      simp only [Option.isSome_some, true_iff]
      exact hU
    · have hnone : BorrowRefMut.new dbg c s = none := by
        simp [BorrowRefMut.new, hU]
      rw [hnone]
      simp only [Option.isSome_none, Bool.false_eq_true, false_iff]
      exact hU
  · intro s' hs'
    by_cases hU : s.flag = UNUSED
    · have hsome : BorrowRefMut.new dbg c s
          = some (BorrowFlag.push dbg c { s with flag := WRITING }) := by
        simp [BorrowRefMut.new, hU]
      rw [hsome, Option.some.injEq] at hs'
      subst hs'
      refine ⟨by rw [push_flag], ?_⟩
      cases dbg with
      | true => rw [push_locations_true]
      | false => rfl
    · simp [BorrowRefMut.new, hU] at hs'
  · intro hU
    have hnone : BorrowRefMut.new dbg c s = none := by
      simp [BorrowRefMut.new, hU]
    exact ⟨hnone, by simp [stepOp, hnone]⟩

/-- Witness for C3 at a flag holding one shared borrow in a debug build. -/
theorem c3_exclusive_acquire_witness :
    ((BorrowRefMut.new true 7 ⟨1, [4]⟩).isSome ↔
      (⟨1, [4]⟩ : BorrowFlag).flag = UNUSED) ∧
    (∀ s', BorrowRefMut.new true 7 ⟨1, [4]⟩ = some s' →
      s'.flag = WRITING ∧
      s'.locations = (match (true : Bool) with
        | true => (⟨1, [4]⟩ : BorrowFlag).locations ++ [7]
        | false => (⟨1, [4]⟩ : BorrowFlag).locations)) ∧
    ((⟨1, [4]⟩ : BorrowFlag).flag ≠ UNUSED →
      BorrowRefMut.new true 7 ⟨1, [4]⟩ = none ∧
      stepOp true (Op.tryMut 7) ⟨⟨1, [4]⟩, 1, 0⟩ = some ⟨⟨1, [4]⟩, 1, 0⟩) :=
  c3_exclusive_acquire true 7 ⟨1, [4]⟩ 1 0

/-- C4 counterexample: in a debug build, from the state with WRITING - 1
shared borrows the shared acquire succeeds and sets the flag to the WRITING
sentinel, and the immediately following guard drop hits the failed
debug_assert (a panic) instead of restoring the prior state. -/
theorem c4_round_trip_counterexample :
    BorrowRef.new true 0 ⟨WRITING - 1, []⟩ = some ⟨WRITING, [0]⟩ ∧
    BorrowRef.drop true ⟨WRITING, [0]⟩ = none := by decide

/-- C4 (amended): one successful acquire immediately followed by dropping the
resulting guard restores the exact prior flag and locations, provided that a
shared acquire in a debug build does not start from WRITING - 1 shared
borrows (there the incremented flag collides with the sentinel and the drop
panics on its debug_assert); exclusive round trips restore the state
unconditionally, as do release-build shared round trips. -/
theorem c4_round_trip (dbg : Bool) (c : Location) (s : BorrowFlag)
    (hwf : s.flag ≤ WRITING) :
    (∀ s', (dbg = true → s.flag + 1 ≠ WRITING) →
      BorrowRef.new dbg c s = some s' → BorrowRef.drop dbg s' = some s) ∧
    (∀ s', BorrowRefMut.new dbg c s = some s' → BorrowRefMut.drop dbg s' = some s) :=
  ⟨fun _ hnc hnew => shared_round_trip hwf hnc hnew,
    fun _ hnew => mut_round_trip hnew⟩

/-- Witness for C4 in a debug build starting from a fresh cell. -/
theorem c4_round_trip_witness :
    (∀ s', ((true : Bool) = true → (⟨0, []⟩ : BorrowFlag).flag + 1 ≠ WRITING) →
      BorrowRef.new true 3 ⟨0, []⟩ = some s' → BorrowRef.drop true s' = some ⟨0, []⟩) ∧
    (∀ s', BorrowRefMut.new true 3 ⟨0, []⟩ = some s' →
      BorrowRefMut.drop true s' = some ⟨0, []⟩) :=
  c4_round_trip true 3 ⟨0, []⟩ (by decide)

/-- C5: a failed try_borrow or try_borrow_mut leaves the system state (flag
and locations) unchanged, and with exactly one live shared borrow (flag 1)
try_borrow_mut fails while a subsequent try_borrow still succeeds. -/
theorem c5_failed_acquire_atomic (dbg : Bool) (c1 c2 : Location) (s : SysState)
    (h1 : s.bf.flag = 1) :
    (∀ (t : SysState) (c : Location),
      (BorrowRef.new dbg c t.bf = none → stepOp dbg (Op.tryShared c) t = some t) ∧
      (BorrowRefMut.new dbg c t.bf = none → stepOp dbg (Op.tryMut c) t = some t)) ∧
    BorrowRefMut.new dbg c2 s.bf = none ∧
    stepOp dbg (Op.tryMut c2) s = some s ∧
    (BorrowRef.new dbg c1 s.bf).isSome := by
  have hmut : BorrowRefMut.new dbg c2 s.bf = none := by
    simp [BorrowRefMut.new, h1, UNUSED]
  have hW : s.bf.flag ≠ WRITING := by
    rw [h1, WRITING_eq]
    decide
  refine ⟨fun t c => ⟨?_, ?_⟩, hmut, ?_, ?_⟩
  · intro hn
    simp [stepOp, hn]
  · intro hn
    simp [stepOp, hn]
  · simp [stepOp, hmut]
  · simp [BorrowRef.new, hW]

/-- Witness for C5: one live shared borrow in a debug build. -/
theorem c5_failed_acquire_atomic_witness :
    (∀ (t : SysState) (c : Location),
      (BorrowRef.new true c t.bf = none → stepOp true (Op.tryShared c) t = some t) ∧
      (BorrowRefMut.new true c t.bf = none → stepOp true (Op.tryMut c) t = some t)) ∧
    BorrowRefMut.new true 9 (⟨⟨1, [4]⟩, 1, 0⟩ : SysState).bf = none ∧
    stepOp true (Op.tryMut 9) ⟨⟨1, [4]⟩, 1, 0⟩ = some ⟨⟨1, [4]⟩, 1, 0⟩ ∧
    (BorrowRef.new true 8 (⟨⟨1, [4]⟩, 1, 0⟩ : SysState).bf).isSome :=
  c5_failed_acquire_atomic true 8 9 ⟨⟨1, [4]⟩, 1, 0⟩ (by decide)

/-- C6 counterexample: in a release build (debug_assert compiled out) a
mismatched release is not fatal: dropping a shared guard at flag UNUSED
silently wraps the counter to WRITING, and dropping an exclusive guard at a
shared count of 5 silently resets the counter to UNUSED. -/
theorem c6_mismatched_release_counterexample :
    BorrowRef.drop false ⟨UNUSED, []⟩ = some ⟨WRITING, []⟩ ∧
    BorrowRefMut.drop false ⟨5, []⟩ = some ⟨UNUSED, []⟩ := by decide

/-- C6 (amended): releasing a guard from a mismatched state is fatal in a
debug build — dropping a shared guard at UNUSED or WRITING, or an exclusive
guard away from WRITING, hits a failed debug_assert — but in a release build
the check is compiled out and the drop silently rewrites the counter instead
of aborting. -/
theorem c6_mismatched_release (s : BorrowFlag) :
    (s.flag = UNUSED ∨ s.flag = WRITING → BorrowRef.drop true s = none) ∧
    (s.flag ≠ WRITING → BorrowRefMut.drop true s = none) ∧
    (BorrowRef.drop false s).isSome ∧
    (BorrowRefMut.drop false s).isSome := by
  refine ⟨?_, ?_, ?_, ?_⟩
  · rintro (h | h) <;> simp [BorrowRef.drop, h]
  · intro h
    simp [BorrowRefMut.drop, h]
  · simp [BorrowRef.drop]
  · simp [BorrowRefMut.drop]

/-- Witness for C6 at the unused flag. -/
theorem c6_mismatched_release_witness :
    ((⟨UNUSED, []⟩ : BorrowFlag).flag = UNUSED ∨
        (⟨UNUSED, []⟩ : BorrowFlag).flag = WRITING →
      BorrowRef.drop true ⟨UNUSED, []⟩ = none) ∧
    ((⟨UNUSED, []⟩ : BorrowFlag).flag ≠ WRITING →
      BorrowRefMut.drop true ⟨UNUSED, []⟩ = none) ∧
    (BorrowRef.drop false ⟨UNUSED, []⟩).isSome ∧
    (BorrowRefMut.drop false ⟨UNUSED, []⟩).isSome :=
  c6_mismatched_release ⟨UNUSED, []⟩

/-- C7: in a debug build the length of the locations list equals the number
of live guards in every reachable state; each successful acquire appends
exactly one location descriptor at the end and each guard drop removes
exactly the last entry (LIFO). -/
theorem c7_locations_length (ops : List Op) (s : SysState)
    (h : run true ops = some s) :
    s.bf.locations.length = s.sharedGuards + s.mutGuards ∧
    (∀ (c : Location) (t t' : BorrowFlag),
      BorrowRef.new true c t = some t' → t'.locations = t.locations ++ [c]) ∧
    (∀ (c : Location) (t t' : BorrowFlag),
      BorrowRefMut.new true c t = some t' → t'.locations = t.locations ++ [c]) ∧
    (∀ (t t' : BorrowFlag),
      BorrowRef.drop true t = some t' → t'.locations = t.locations.dropLast) ∧
    (∀ (t t' : BorrowFlag),
      BorrowRefMut.drop true t = some t' → t'.locations = t.locations.dropLast) := by
  obtain ⟨-, hloc⟩ := run_inv h
  refine ⟨hloc rfl, ?_, ?_, ?_, ?_⟩
  · intro c t t' hn
    by_cases hW : t.flag = WRITING
    · simp [BorrowRef.new, hW] at hn
    · have hsome : BorrowRef.new true c t
          = some (BorrowFlag.push true c { t with flag := t.flag + 1 }) := by
        simp [BorrowRef.new, hW]
      rw [hsome, Option.some.injEq] at hn
      subst hn
      rw [push_locations_true]
  · intro c t t' hn
    by_cases hU : t.flag = UNUSED
    · have hsome : BorrowRefMut.new true c t
          = some (BorrowFlag.push true c { t with flag := WRITING }) := by
        simp [BorrowRefMut.new, hU]
      rw [hsome, Option.some.injEq] at hn
      subst hn
      rw [push_locations_true]
    · simp [BorrowRefMut.new, hU] at hn
  · intro t t' hn
    by_cases hC : t.flag = WRITING ∨ t.flag = UNUSED
    · simp [BorrowRef.drop, hC] at hn
    · simp only [BorrowRef.drop, if_neg hC, Option.some.injEq] at hn
      subst hn
      rw [pop_locations_true]
  · intro t t' hn
    by_cases hC : t.flag = WRITING
    · have hsome : BorrowRefMut.drop true t
          = some (BorrowFlag.pop true { t with flag := UNUSED }) := by
        simp [BorrowRefMut.drop, hC]
      rw [hsome, Option.some.injEq] at hn
      subst hn
      rw [pop_locations_true]
    · simp [BorrowRefMut.drop, hC] at hn

/-- Witness for C7 after a single shared acquire. -/
theorem c7_locations_length_witness :
    (⟨⟨1, [7]⟩, 1, 0⟩ : SysState).bf.locations.length
      = (⟨⟨1, [7]⟩, 1, 0⟩ : SysState).sharedGuards
        + (⟨⟨1, [7]⟩, 1, 0⟩ : SysState).mutGuards ∧
    (∀ (c : Location) (t t' : BorrowFlag),
      BorrowRef.new true c t = some t' → t'.locations = t.locations ++ [c]) ∧
    (∀ (c : Location) (t t' : BorrowFlag),
      BorrowRefMut.new true c t = some t' → t'.locations = t.locations ++ [c]) ∧
    (∀ (t t' : BorrowFlag),
      BorrowRef.drop true t = some t' → t'.locations = t.locations.dropLast) ∧
    (∀ (t t' : BorrowFlag),
      BorrowRefMut.drop true t = some t' → t'.locations = t.locations.dropLast) :=
  c7_locations_length [Op.tryShared 7] ⟨⟨1, [7]⟩, 1, 0⟩ (by decide)

/-- C8: Ref::map and RefMut::map produce a projected guard of the same
access kind holding the projected value; the map consumes the original guard
one-for-one, so the system state (flag, locations and guard counts) is
unchanged, and in any reachable state the projected guard keeps blocking
conflicting acquisitions exactly as the original did: with a live shared
guard an exclusive acquire still fails, and with a live exclusive guard both
kinds of acquire still fail. -/
theorem c8_map_state_neutral {β γ : Type} (dbg : Bool) (ops : List Op)
    (s : SysState) (f : β → γ) (r : Ref β) (rm : RefMut β)
    (h : run dbg ops = some s) :
    (Ref.map r f).value = f r.value ∧
    (RefMut.map rm f).value = f rm.value ∧
    (0 < s.sharedGuards →
      stepOp dbg Op.mapShared s = some s ∧
      ∀ c, BorrowRefMut.new dbg c s.bf = none) ∧
    (0 < s.mutGuards →
      stepOp dbg Op.mapMut s = some s ∧
      ∀ c, BorrowRef.new dbg c s.bf = none ∧ BorrowRefMut.new dbg c s.bf = none) := by
  obtain ⟨hflag, -⟩ := run_inv h
  refine ⟨rfl, rfl, ?_, ?_⟩
  · intro hs
    have hz : s.sharedGuards ≠ 0 := by omega
    refine ⟨by simp [stepOp, hz], fun c => ?_⟩
    rcases hflag with ⟨hm, hf, hle⟩ | ⟨hm, hf, hsh⟩
    · have hne : s.bf.flag ≠ UNUSED := by
        rw [hf]
        simp only [UNUSED]
        omega
      simp [BorrowRefMut.new, hne]
    · have hne : s.bf.flag ≠ UNUSED := by
        rw [hf, WRITING_eq]
        decide
      simp [BorrowRefMut.new, hne]
  · intro hm'
    rcases hflag with ⟨hm, hf, hle⟩ | ⟨hm, hf, hsh⟩
    · exact absurd hm (by omega)
    · have hz : s.mutGuards ≠ 0 := by omega
      refine ⟨by simp [stepOp, hz], fun c => ⟨?_, ?_⟩⟩
      · simp [BorrowRef.new, hf]
      · have hne : s.bf.flag ≠ UNUSED := by
          rw [hf, WRITING_eq]
          decide
        simp [BorrowRefMut.new, hne]

/-- Witness for C8 in the reachable state with one live shared guard. -/
theorem c8_map_state_neutral_witness :
    (Ref.map (⟨3⟩ : Ref Nat) Nat.succ).value = Nat.succ 3 ∧
    (RefMut.map (⟨3⟩ : RefMut Nat) Nat.succ).value = Nat.succ 3 ∧
    (0 < (⟨⟨1, [0]⟩, 1, 0⟩ : SysState).sharedGuards →
      stepOp true Op.mapShared ⟨⟨1, [0]⟩, 1, 0⟩ = some ⟨⟨1, [0]⟩, 1, 0⟩ ∧
      ∀ c, BorrowRefMut.new true c (⟨⟨1, [0]⟩, 1, 0⟩ : SysState).bf = none) ∧
    (0 < (⟨⟨1, [0]⟩, 1, 0⟩ : SysState).mutGuards →
      stepOp true Op.mapMut ⟨⟨1, [0]⟩, 1, 0⟩ = some ⟨⟨1, [0]⟩, 1, 0⟩ ∧
      ∀ c, BorrowRef.new true c (⟨⟨1, [0]⟩, 1, 0⟩ : SysState).bf = none ∧
        BorrowRefMut.new true c (⟨⟨1, [0]⟩, 1, 0⟩ : SysState).bf = none) :=
  c8_map_state_neutral true [Op.tryShared 0] ⟨⟨1, [0]⟩, 1, 0⟩ Nat.succ ⟨3⟩ ⟨3⟩
    (by decide)

/-- C9: the fallible projection on either guard type returns the new guard
with the borrow flag untouched when the projection yields a value, and
returns no guard while dropping the original guard normally when the
projection yields nothing; performed right after a fresh acquire, a failed
projection restores the pre-acquire flag and locations. -/
theorem c9_filter_map {β γ : Type} (dbg : Bool) (c : Location) (s : BorrowFlag)
    (f g : β → Option γ) (r : Ref β) (rm : RefMut β)
    (hwf : s.flag ≤ WRITING) :
    (∀ (t : BorrowFlag) v, f r.value = some v →
      Ref.filter_map dbg r f t = (some ⟨v⟩, some t)) ∧
    (∀ (t : BorrowFlag), f r.value = none →
      Ref.filter_map dbg r f t = (none, BorrowRef.drop dbg t)) ∧
    ((dbg = true → s.flag + 1 ≠ WRITING) → f r.value = none →
      ∀ s', BorrowRef.new dbg c s = some s' →
        Ref.filter_map dbg r f s' = (none, some s)) ∧
    (∀ (t : BorrowFlag) v, g rm.value = some v →
      RefMut.filter_map dbg rm g t = (some ⟨v⟩, some t)) ∧
    (∀ (t : BorrowFlag), g rm.value = none →
      RefMut.filter_map dbg rm g t = (none, BorrowRefMut.drop dbg t)) ∧
    (g rm.value = none →
      ∀ s', BorrowRefMut.new dbg c s = some s' →
        RefMut.filter_map dbg rm g s' = (none, some s)) := by
  refine ⟨?_, ?_, ?_, ?_, ?_, ?_⟩
  · intro t v hv
    simp [Ref.filter_map, hv]
  · intro t hn
    simp [Ref.filter_map, hn]
  · intro hnc hn s' hnew
    simp [Ref.filter_map, hn, shared_round_trip hwf hnc hnew]
  · intro t v hv
    simp [RefMut.filter_map, hv]
  · intro t hn
    simp [RefMut.filter_map, hn]
  · intro hn s' hnew
    simp [RefMut.filter_map, hn, mut_round_trip hnew]

/-- Witness for C9 with an always-failing projection from a fresh cell in a
debug build. -/
theorem c9_filter_map_witness :
    (∀ (t : BorrowFlag) v, (fun _ : Nat => (none : Option Nat)) 3 = some v →
      Ref.filter_map true (⟨3⟩ : Ref Nat) (fun _ : Nat => (none : Option Nat)) t
        = (some ⟨v⟩, some t)) ∧
    (∀ (t : BorrowFlag), (fun _ : Nat => (none : Option Nat)) 3 = none →
      Ref.filter_map true (⟨3⟩ : Ref Nat) (fun _ : Nat => (none : Option Nat)) t
        = (none, BorrowRef.drop true t)) ∧
    (((true : Bool) = true → (⟨0, []⟩ : BorrowFlag).flag + 1 ≠ WRITING) →
      (fun _ : Nat => (none : Option Nat)) 3 = none →
      ∀ s', BorrowRef.new true 6 ⟨0, []⟩ = some s' →
        Ref.filter_map true (⟨3⟩ : Ref Nat) (fun _ : Nat => (none : Option Nat)) s'
          = (none, some ⟨0, []⟩)) ∧
    (∀ (t : BorrowFlag) v, (fun _ : Nat => (none : Option Nat)) 3 = some v →
      RefMut.filter_map true (⟨3⟩ : RefMut Nat) (fun _ : Nat => (none : Option Nat)) t
        = (some ⟨v⟩, some t)) ∧
    (∀ (t : BorrowFlag), (fun _ : Nat => (none : Option Nat)) 3 = none →
      RefMut.filter_map true (⟨3⟩ : RefMut Nat) (fun _ : Nat => (none : Option Nat)) t
        = (none, BorrowRefMut.drop true t)) ∧
    ((fun _ : Nat => (none : Option Nat)) 3 = none →
      ∀ s', BorrowRefMut.new true 6 ⟨0, []⟩ = some s' →
        RefMut.filter_map true (⟨3⟩ : RefMut Nat) (fun _ : Nat => (none : Option Nat)) s'
          = (none, some ⟨0, []⟩)) :=
  c9_filter_map true 6 ⟨0, []⟩ (fun _ : Nat => (none : Option Nat))
    (fun _ : Nat => (none : Option Nat)) ⟨3⟩ ⟨3⟩ (by decide)

/-- C10: while the cell holds a live exclusive borrow (flag WRITING) the
derived value operations panic instead of returning: Clone goes through the
panicking borrow accessor, and PartialEq panics with the mutably borrowed
cell on either side. -/
theorem c10_value_ops_panic {α : Type} (dbg : Bool) (c c1 c2 : Location)
    (beq : α → α → Bool) (self other : RefCell α)
    (h : self.borrow.flag = WRITING) :
    RefCell.clone dbg c self = none ∧
    RefCell.eq dbg c1 c2 beq self other = none ∧
    RefCell.eq dbg c1 c2 beq other self = none := by
  have hself : ∀ (x : Location), RefCell.try_borrow dbg x self = none := by
    intro x
    simp [RefCell.try_borrow, BorrowRef.new, h]
  refine ⟨?_, ?_, ?_⟩
  · simp [RefCell.clone, hself c]
  · simp [RefCell.eq, hself c1]
  · cases hb : RefCell.try_borrow dbg c1 other with
    | none => simp [RefCell.eq, hb]
    | some pr => simp [RefCell.eq, hb, hself c2]

/-- Witness for C10 on a mutably borrowed cell of Nat. -/
theorem c10_value_ops_panic_witness :
    RefCell.clone true 0 (⟨⟨WRITING, [1]⟩, 42⟩ : RefCell Nat) = none ∧
    RefCell.eq true 1 2 Nat.beq (⟨⟨WRITING, [1]⟩, 42⟩ : RefCell Nat)
      (RefCell.new 42) = none ∧
    RefCell.eq true 1 2 Nat.beq (RefCell.new 42)
      (⟨⟨WRITING, [1]⟩, 42⟩ : RefCell Nat) = none :=
  c10_value_ops_panic true 0 1 2 Nat.beq ⟨⟨WRITING, [1]⟩, 42⟩ (RefCell.new 42)
    (by decide)

end DebugCell
